import Mathlib

/-!
Shallow embedding of the MamaCare schedule-generation core.

Sources:
* `src/server/services/kepi-schedule.ts` — the KEPI vaccination table,
  `generateVaccinationSchedule`, `getNextVaccination`,
  `calculateVaccinationProgress`.
* `src/unnamed/part_004` (ANC guidelines module) — `calculatePregnancyWeeks`,
  `getPregnancyRiskFactors`.

Modelling conventions:
* Calendar dates are integers (day numbers).  JavaScript `Date` values are
  millisecond timestamps; the date arithmetic in this module only ever adds a
  whole number of days to a parsed anchor date and compares results, so day
  numbers are a faithful abstraction.  `calculatePregnancyWeeks` works at
  millisecond resolution, so there the integers are millisecond timestamps.
* The ambient clock (`new Date()` in the source) is passed explicitly as a
  `today` parameter: stateful reads become explicit state passing.
* A possibly-unparseable anchor-date string becomes an `Option ℤ`:
  `none` models a string that `new Date(...)` turns into an `Invalid Date`.
  Calling `toISOString` on such a value throws, which the spec calls
  `InvalidDateError`; the generator is therefore embedded as `Except`.
* JS `Array.prototype.sort` is stable (ES2019), so it is modelled by the
  stable `List.insertionSort`.
* Informational side-effect/tip string arrays of the vaccine table are elided:
  no function under verification reads them.
-/

namespace MamaCare

/-- A row of the static KEPI table (`Vaccine` interface in the source).
`ageDays` is the optional day-level override. -/
structure Vaccine where
  name : String
  dose : ℤ
  ageWeeks : ℤ
  ageDays : Option ℤ := none
  method : String
  purpose : String
  deriving DecidableEq, Repr

/-- A generated schedule row (`VaccinationScheduleItem` in the source);
`date` is the computed calendar date as a day number. -/
structure VaccinationScheduleItem where
  name : String
  dose : ℤ
  date : ℤ
  ageAtVaccination : String
  method : String
  purpose : String
  deriving DecidableEq, Repr

/-- The static `KEPI_SCHEDULE` table from `kepi-schedule.ts`. -/
def KEPI_SCHEDULE : List Vaccine := [
  { name := "BCG", dose := 1, ageWeeks := 0, ageDays := some 0,
    method := "0.05ml intradermal injection, left forearm",
    purpose := "Protects against tuberculosis (TB)" },
  { name := "OPV", dose := 1, ageWeeks := 0, ageDays := some 0,
    method := "2 oral drops",
    purpose := "Protects against polio" },
  { name := "Pentavalent", dose := 1, ageWeeks := 6,
    method := "0.5ml intramuscular, outer thigh",
    purpose := "Protects against diphtheria, pertussis (whooping cough), tetanus, hepatitis B, and Haemophilus influenzae type b" },
  { name := "OPV", dose := 2, ageWeeks := 6,
    method := "Oral drops",
    purpose := "Booster protection against polio" },
  { name := "PCV", dose := 1, ageWeeks := 6,
    method := "0.5ml intramuscular",
    purpose := "Protects against pneumonia and meningitis" },
  { name := "Rotavirus", dose := 1, ageWeeks := 6,
    method := "1.5ml oral",
    purpose := "Protects against severe diarrhea" },
  { name := "Pentavalent", dose := 2, ageWeeks := 10,
    method := "0.5ml intramuscular",
    purpose := "Second dose for continued protection" },
  { name := "OPV", dose := 3, ageWeeks := 10,
    method := "Oral drops",
    purpose := "Third dose of polio protection" },
  { name := "PCV", dose := 2, ageWeeks := 10,
    method := "0.5ml intramuscular",
    purpose := "Second dose for pneumonia protection" },
  { name := "Rotavirus", dose := 2, ageWeeks := 10,
    method := "1.5ml oral",
    purpose := "Second dose for rotavirus protection" },
  { name := "Pentavalent", dose := 3, ageWeeks := 14,
    method := "0.5ml intramuscular",
    purpose := "Final dose of pentavalent series" },
  { name := "OPV", dose := 4, ageWeeks := 14,
    method := "Oral drops",
    purpose := "Fourth dose of polio protection" },
  { name := "PCV", dose := 3, ageWeeks := 14,
    method := "0.5ml intramuscular",
    purpose := "Third dose completes primary PCV series" },
  { name := "IPV", dose := 1, ageWeeks := 14,
    method := "0.5ml injection",
    purpose := "Inactivated polio vaccine for additional protection" },
  { name := "Measles-Rubella", dose := 1, ageWeeks := 39,
    method := "0.5ml injection",
    purpose := "Protects against measles and rubella" },
  { name := "Vitamin A", dose := 1, ageWeeks := 39,
    method := "200,000 IU oral",
    purpose := "Supports immune system and vision" },
  { name := "Measles-Rubella", dose := 2, ageWeeks := 78,
    method := "0.5ml injection",
    purpose := "Booster dose for measles and rubella protection" },
  { name := "Vitamin A", dose := 2, ageWeeks := 78,
    method := "200,000 IU oral",
    purpose := "Continued vitamin A supplementation" }
]

/-- The day offset the loop body adds to the birth date:
`ageDays` when present, otherwise `ageWeeks * 7`. -/
def offsetDays (v : Vaccine) : ℤ :=
  match v.ageDays with
  | some d => d
  | none => v.ageWeeks * 7

/-- One loop iteration of `generateVaccinationSchedule`: build the schedule
item for a vaccine from a (parsed) birth date. -/
def toItem (birthDate : ℤ) (v : Vaccine) : VaccinationScheduleItem :=
  { name := v.name
    dose := v.dose
    date := birthDate + offsetDays v
    ageAtVaccination :=
      if v.ageWeeks = 0 then "At birth" else toString v.ageWeeks ++ " weeks"
    method := v.method
    purpose := v.purpose }

/-- The comparator of the final `.sort`: ascending by computed date. -/
def dateLe (a b : VaccinationScheduleItem) : Prop := a.date ≤ b.date

instance : DecidableRel dateLe := fun a b => inferInstanceAs (Decidable (a.date ≤ b.date))

/-- The spec's `InvalidDateError`: in the source an invalid anchor date makes
`toISOString()` throw inside the generation loop. -/
inductive InvalidDateError where
  | invalidDate
  deriving DecidableEq, Repr

/-- The generator `generateVaccinationSchedule` generalised over the table it iterates
(the source hard-codes `KEPI_SCHEDULE`).  `birthDate = none` models an
anchor-date string that cannot be parsed: the first loop iteration then
throws; with an empty table the loop body never runs and the empty list is
returned. -/
def generateVaccinationScheduleWith (birthDate : Option ℤ) (table : List Vaccine) :
    Except InvalidDateError (List VaccinationScheduleItem) :=
  match birthDate with
  | some b => .ok (List.insertionSort dateLe (table.map (toItem b)))
  | none =>
      match table with
      | [] => .ok []
      | _ :: _ => .error .invalidDate

/-- The function `generateVaccinationSchedule` from the source: the generalised generator
applied to the static KEPI table. -/
def generateVaccinationSchedule (birthDate : Option ℤ) :
    Except InvalidDateError (List VaccinationScheduleItem) :=
  generateVaccinationScheduleWith birthDate KEPI_SCHEDULE

/-- The successful result of `generateVaccinationSchedule` on a parsed
birth date. -/
def generateScheduleOk (birthDate : ℤ) : List VaccinationScheduleItem :=
  List.insertionSort dateLe (KEPI_SCHEDULE.map (toItem birthDate))

/-- A completion record as read by `getNextVaccination`
(`completedVaccinations` rows).  `administeredDate` models the date stored in
the record, which the matching predicate never reads. -/
structure CompletedVaccination where
  vaccineName : String
  doseNumber : ℤ
  status : String
  administeredDate : ℤ
  deriving DecidableEq, Repr

/-- The `completedVaccinations.some(...)` test of `getNextVaccination`. -/
def isCompletedFor (completed : List CompletedVaccination)
    (s : VaccinationScheduleItem) : Bool :=
  completed.any fun c =>
    c.vaccineName == s.name && c.doseNumber == s.dose && c.status == "administered"

/-- The record `getNextVaccination` returns for a pending item. -/
structure NextVaccination where
  vaccineName : String
  doseNumber : ℤ
  scheduledDate : ℤ
  status : String
  method : String
  purpose : String
  deriving DecidableEq, Repr

/-- The early-returning `for` loop of `getNextVaccination`. -/
def findNextPending (today : ℤ) (completed : List CompletedVaccination) :
    List VaccinationScheduleItem → Option NextVaccination
  | [] => none
  | s :: rest =>
      if isCompletedFor completed s then
        findNextPending today completed rest
      else
        some { vaccineName := s.name
               doseNumber := s.dose
               scheduledDate := s.date
               status := if s.date < today then "overdue" else "scheduled"
               method := s.method
               purpose := s.purpose }

/-- The function `getNextVaccination` from the source, with the ambient clock passed
explicitly and the birth date already parsed. -/
def getNextVaccination (dateOfBirth : ℤ)
    (completedVaccinations : List CompletedVaccination) (today : ℤ) :
    Option NextVaccination :=
  findNextPending today completedVaccinations (generateScheduleOk dateOfBirth)

/-- The result record of `calculateVaccinationProgress`. -/
structure VaccinationProgress where
  totalVaccines : ℕ
  completedVaccines : ℕ
  progressPercentage : ℕ
  nextDue : Option NextVaccination
  deriving DecidableEq, Repr

/-- The value `Math.round((c / d) * 100)` for natural `c` and positive natural `d`:
the quotient is nonnegative, and JS `Math.round` rounds half up, so the
result is `⌊100 c / d + 1 / 2⌋ = ⌊(200 c + d) / (2 d)⌋`. -/
def roundPercent (c d : ℕ) : ℕ := (200 * c + d) / (2 * d)

/-- The function `calculateVaccinationProgress` from the source, clock passed
explicitly. -/
def calculateVaccinationProgress (dateOfBirth : ℤ)
    (completedVaccinations : List CompletedVaccination) (today : ℤ) :
    VaccinationProgress :=
  let schedule := generateScheduleOk dateOfBirth
  let dueVaccines := schedule.filter fun v => v.date ≤ today
  let completed := completedVaccinations.filter fun v => v.status == "administered"
  let nextDue := getNextVaccination dateOfBirth completedVaccinations today
  { totalVaccines := dueVaccines.length
    completedVaccines := completed.length
    progressPercentage :=
      if 0 < dueVaccines.length then roundPercent completed.length dueVaccines.length
      else 0
    nextDue := nextDue }

/-- A risk tier of `getPregnancyRiskFactors`. -/
inductive RiskLevel where
  | low
  | medium
  | high
  deriving DecidableEq, Repr

/-- The result record of `getPregnancyRiskFactors`, also used as the mutable
accumulator its rule sequence updates. -/
structure RiskResult where
  riskLevel : RiskLevel
  factors : List String
  recommendations : List String
  deriving DecidableEq, Repr

/-- The function `getPregnancyRiskFactors` from the ANC module: a sequence of independent
rule checks, each pushing one factor string and one recommendation string and
assigning (overwriting) `riskLevel`.  `Math.floor(currentWeeks / 8)` is the
floor division `Int.fdiv`. -/
def getPregnancyRiskFactors (age currentWeeks : ℤ)
    (tetanusVaccinated ifasStarted : Bool) (ancVisits : ℤ) : RiskResult :=
  let a0 : RiskResult := { riskLevel := .low, factors := [], recommendations := [] }
  let a1 :=
    if age < 18 then
      { riskLevel := .medium
        factors := a0.factors ++ ["Young maternal age (under 18)"]
        recommendations := a0.recommendations ++ ["Extra nutritional support needed"] }
    else a0
  let a2 :=
    if age > 35 then
      { riskLevel := .medium
        factors := a1.factors ++ ["Advanced maternal age (over 35)"]
        recommendations := a1.recommendations ++ ["More frequent monitoring may be needed"] }
    else a1
  let a3 :=
    if currentWeeks > 36 ∧ tetanusVaccinated = false then
      { riskLevel := .high
        factors := a2.factors ++ ["Tetanus vaccination overdue"]
        recommendations := a2.recommendations ++ ["Get tetanus vaccination immediately"] }
    else a2
  let a4 :=
    if ifasStarted = false ∧ currentWeeks > 12 then
      { riskLevel := .medium
        factors := a3.factors ++ ["IFAS supplements not started"]
        recommendations := a3.recommendations ++ ["Start iron and folic acid supplements immediately"] }
    else a3
  let expectedVisits := min (Int.fdiv currentWeeks 8) 4
  if ancVisits < expectedVisits then
    { riskLevel := if expectedVisits - ancVisits > 1 then .high else a4.riskLevel
      factors := a4.factors ++ ["Missed ANC visits"]
      recommendations := a4.recommendations ++ ["Catch up on missed antenatal care visits"] }
  else a4

/-- Severity order on risk tiers (low < medium < high), used to state the
spec's maximum-severity reading of the rule table. -/
def RiskLevel.sev : RiskLevel → ℕ
  | .low => 0
  | .medium => 1
  | .high => 2

/-- Maximum of two tiers by severity. -/
def RiskLevel.join (x y : RiskLevel) : RiskLevel :=
  if x.sev ≤ y.sev then y else x

/-- The risk tier as the spec describes it: the maximum severity among the
individually triggered rules (age under 18: medium; age over 35: medium;
week over 36 without tetanus vaccination: high; IFAS not started after week
12: medium; ANC visits more than one below expected: high). -/
def claimedMaxSeverity (age currentWeeks : ℤ)
    (tetanusVaccinated ifasStarted : Bool) (ancVisits : ℤ) : RiskLevel :=
  let expectedVisits := min (Int.fdiv currentWeeks 8) 4
  RiskLevel.low
    |>.join (if age < 18 then .medium else .low)
    |>.join (if age > 35 then .medium else .low)
    |>.join (if currentWeeks > 36 ∧ tetanusVaccinated = false then .high else .low)
    |>.join (if ifasStarted = false ∧ currentWeeks > 12 then .medium else .low)
    |>.join (if ancVisits < expectedVisits ∧ expectedVisits - ancVisits > 1 then .high else .low)

/-- The tier assigned by the last firing rule among the first four rules of
`getPregnancyRiskFactors` (the two age rules, the tetanus rule and the IFAS
rule), read in reverse source order. -/
def lastAssignedBeforeAnc (age currentWeeks : ℤ)
    (tetanusVaccinated ifasStarted : Bool) : RiskLevel :=
  if ifasStarted = false ∧ currentWeeks > 12 then .medium
  else if currentWeeks > 36 ∧ tetanusVaccinated = false then .high
  else if age > 35 then .medium
  else if age < 18 then .medium
  else .low

/-- The risk tier the code actually computes, read off the assignment
sequence backwards: the severity assigned by the last rule that fires
(the ANC rule assigns high only when the visit deficit exceeds one,
otherwise it leaves the tier of the earlier rules in place). -/
def lastAssignedSeverity (age currentWeeks : ℤ)
    (tetanusVaccinated ifasStarted : Bool) (ancVisits : ℤ) : RiskLevel :=
  let expectedVisits := min (Int.fdiv currentWeeks 8) 4
  if ancVisits < expectedVisits then
    if expectedVisits - ancVisits > 1 then .high
    else lastAssignedBeforeAnc age currentWeeks tetanusVaccinated ifasStarted
  else lastAssignedBeforeAnc age currentWeeks tetanusVaccinated ifasStarted

/-- Result of `calculatePregnancyWeeks`. -/
structure PregnancyWeeks where
  weeks : ℤ
  days : ℤ
  trimester : ℤ
  deriving DecidableEq, Repr

/-- Milliseconds per day, `1000 * 60 * 60 * 24`. -/
def msPerDay : ℤ := 86400000

/-- The function `calculatePregnancyWeeks` from the ANC module, over millisecond
timestamps with the clock passed explicitly.  `diffTime` is
`Math.abs(today - lmp)`; `Math.ceil` of the nonnegative exact quotient
`diffTime / msPerDay` is `(diffTime + msPerDay - 1) / msPerDay`. -/
def calculatePregnancyWeeks (today lmp : ℤ) : PregnancyWeeks :=
  let diffTime := |today - lmp|
  let diffDays := (diffTime + msPerDay - 1) / msPerDay
  let weeks := diffDays / 7
  let days := diffDays % 7
  let trimester : ℤ :=
    if 14 ≤ weeks ∧ weeks ≤ 27 then 2
    else if 28 ≤ weeks then 3
    else 1
  { weeks := weeks, days := days, trimester := trimester }

/-- The pending-item record built from a schedule item, as the spec words
it: tagged overdue exactly when the computed date is strictly before the
caller-supplied clock, else scheduled. -/
def nextOf (today : ℤ) (s : VaccinationScheduleItem) : NextVaccination :=
  { vaccineName := s.name
    doseNumber := s.dose
    scheduledDate := s.date
    status := if s.date < today then "overdue" else "scheduled"
    method := s.method
    purpose := s.purpose }

/-- The next-pending lookup as the spec words it (its `findNextPending`
contract): the first entry of the schedule without a matching administered
completion, or none when all entries are matched. -/
def findNextPendingSpec (today : ℤ) (completed : List CompletedVaccination)
    (schedule : List VaccinationScheduleItem) : Option NextVaccination :=
  (schedule.find? fun s => ! isCompletedFor completed s).map (nextOf today)

/-- The projection of a completion record that the matching predicate of
`getNextVaccination` reads: label, dose ordinal and status — never the
stored date. -/
def completionKey (c : CompletedVaccination) : String × ℤ × String :=
  (c.vaccineName, c.doseNumber, c.status)

/-- The record `getNextVaccination` returns for anchor 0, clock day 0 and
no completions: the BCG item dated day 0, scheduled (its date equals the
clock, so it is not overdue). -/
def bcgNextAtDay0 : NextVaccination :=
  { vaccineName := "BCG", doseNumber := 1, scheduledDate := 0,
    status := "scheduled",
    method := "0.05ml intradermal injection, left forearm",
    purpose := "Protects against tuberculosis (TB)" }

/-! ### Theorems -/

/-- C1: the spec reads the risk rule table as a pure maximum of triggered
severities, but the rules assign (overwrite) the tier, so the IFAS rule can
lower a tier the tetanus rule had already raised to high.  Concretely at
age 25, week 40, tetanus not vaccinated, IFAS not started, 4 ANC visits:
the tetanus rule fires (high) yet the code returns medium. -/
theorem getPregnancyRiskFactors_not_max_severity :
    claimedMaxSeverity 25 40 false false 4 = .high ∧
    (getPregnancyRiskFactors 25 40 false false 4).riskLevel = .medium ∧
    (getPregnancyRiskFactors 25 40 false false 4).riskLevel ≠
      claimedMaxSeverity 25 40 false false 4 := by
  decide

/-- C1 (amended): the returned tier is the severity assigned by the last
rule that fires, in source order (the ANC rule assigning high only when the
visit deficit exceeds one); later medium rules overwrite an earlier high. -/
theorem getPregnancyRiskFactors_riskLevel_eq_lastAssigned
    (age currentWeeks : ℤ) (tetanusVaccinated ifasStarted : Bool) (ancVisits : ℤ) :
    (getPregnancyRiskFactors age currentWeeks tetanusVaccinated ifasStarted ancVisits).riskLevel
      = lastAssignedSeverity age currentWeeks tetanusVaccinated ifasStarted ancVisits := by
  simp only [getPregnancyRiskFactors, lastAssignedSeverity, lastAssignedBeforeAnc]
  split_ifs <;> rfl

/-- C9: every rule of `getPregnancyRiskFactors` pushes exactly one factor
together with exactly one recommendation, so the two lists always have equal
length. -/
theorem getPregnancyRiskFactors_factors_length_eq_recommendations
    (age currentWeeks : ℤ) (tetanusVaccinated ifasStarted : Bool) (ancVisits : ℤ) :
    (getPregnancyRiskFactors age currentWeeks tetanusVaccinated ifasStarted ancVisits).factors.length
      = (getPregnancyRiskFactors age currentWeeks tetanusVaccinated ifasStarted ancVisits).recommendations.length := by
  simp only [getPregnancyRiskFactors]
  split_ifs <;> rfl

/-- C10: `calculatePregnancyWeeks` takes the absolute difference between the
clock and the LMP timestamp, so weeks and days are nonnegative and an LMP
lying a given distance in the future yields exactly the result of an LMP the
same distance in the past. -/
theorem calculatePregnancyWeeks_nonneg_and_mirror (today lmp : ℤ) :
    0 ≤ (calculatePregnancyWeeks today lmp).weeks ∧
    0 ≤ (calculatePregnancyWeeks today lmp).days ∧
    calculatePregnancyWeeks today (today + (today - lmp))
      = calculatePregnancyWeeks today lmp := by
  have habs : (0:ℤ) ≤ |today - lmp| := abs_nonneg _
  have hnum : (0:ℤ) ≤ |today - lmp| + msPerDay - 1 := by
    simp only [msPerDay]; omega
  have hdd : (0:ℤ) ≤ (|today - lmp| + msPerDay - 1) / msPerDay :=
    Int.ediv_nonneg hnum (by norm_num [msPerDay])
  refine ⟨?_, ?_, ?_⟩
  · exact Int.ediv_nonneg hdd (by norm_num)
  · exact Int.emod_nonneg _ (by norm_num)
  · have h : today - (today + (today - lmp)) = -(today - lmp) := by ring
    simp only [calculatePregnancyWeeks, h, abs_neg]

/-- The generated dates of two table entries compare like their day
offsets: sortedness of the item list reduces to sortedness of the offsets. -/
theorem sorted_map_toItem (b : ℤ) (table : List Vaccine)
    (h : List.Pairwise (fun u v => offsetDays u ≤ offsetDays v) table) :
    List.Sorted dateLe (table.map (toItem b)) := by
  rw [List.Sorted, List.pairwise_map]
  exact h.imp fun hle => by
    simp only [dateLe, toItem]
    omega

/-- The static KEPI table is listed in non-decreasing offset order. -/
theorem kepi_offsets_sorted :
    List.Pairwise (fun u v => offsetDays u ≤ offsetDays v) KEPI_SCHEDULE := by
  decide

/-- C4: for every parsed anchor date, every entry of the iterated table
produces a schedule item in the successful output whose date is the anchor
plus `ageDays` when the day-level override is present and the anchor plus
`7 * ageWeeks` otherwise. -/
theorem generateVaccinationSchedule_offset (b : ℤ) (table : List Vaccine)
    (v : Vaccine) (hv : v ∈ table) :
    ∃ items, generateVaccinationScheduleWith (some b) table = .ok items ∧
      toItem b v ∈ items ∧
      (toItem b v).date = b + (match v.ageDays with
        | some d => d
        | none => 7 * v.ageWeeks) := by
  refine ⟨_, rfl, ?_, ?_⟩
  · rw [List.mem_insertionSort]
    exact List.mem_map_of_mem _ hv
  · simp only [toItem, offsetDays]
    cases v.ageDays <;> simp [mul_comm]

/-- Witness for C4 at a concrete input: a one-entry table with a six-week
offset and anchor 0 yields the item dated day 42. -/
theorem generateVaccinationSchedule_offset_witness :
    ∃ items,
      generateVaccinationScheduleWith (some 0)
        [{ name := "X", dose := 1, ageWeeks := 6, method := "m", purpose := "p" }] = .ok items ∧
      toItem 0 { name := "X", dose := 1, ageWeeks := 6, method := "m", purpose := "p" } ∈ items ∧
      (toItem 0 { name := "X", dose := 1, ageWeeks := 6, method := "m", purpose := "p" }).date
        = 0 + (match ({ name := "X", dose := 1, ageWeeks := 6, method := "m", purpose := "p" } : Vaccine).ageDays with
          | some d => d
          | none => 7 * ({ name := "X", dose := 1, ageWeeks := 6, method := "m", purpose := "p" } : Vaccine).ageWeeks) :=
  generateVaccinationSchedule_offset 0 _ _ (List.mem_singleton.mpr rfl)

/-- C5: for every anchor date the generated KEPI schedule has exactly one
item per table entry, in table order (so entries sharing a computed date keep
their relative table order: the sort is stable and here the identity), and it
is non-decreasing by computed date. -/
theorem generateVaccinationSchedule_sorted_stable (b : ℤ) :
    generateScheduleOk b = KEPI_SCHEDULE.map (toItem b) ∧
    List.Sorted dateLe (generateScheduleOk b) ∧
    (generateScheduleOk b).length = KEPI_SCHEDULE.length := by
  have hs : List.Sorted dateLe (KEPI_SCHEDULE.map (toItem b)) :=
    sorted_map_toItem b KEPI_SCHEDULE kepi_offsets_sorted
  have heq : generateScheduleOk b = KEPI_SCHEDULE.map (toItem b) :=
    hs.insertionSort_eq
  exact ⟨heq, heq ▸ hs, by rw [heq, List.length_map]⟩

/-- C6: generation fails exactly on an unparseable anchor (the static KEPI
table being non-empty); every parsed anchor succeeds for every table, and an
empty table gives the empty list, not an error. -/
theorem generateVaccinationSchedule_error_iff :
    (∀ birthDate : Option ℤ,
      (∃ e, generateVaccinationSchedule birthDate = .error e) ↔ birthDate = none) ∧
    (∀ (b : ℤ) (table : List Vaccine),
      ∃ items, generateVaccinationScheduleWith (some b) table = .ok items) ∧
    (∀ b : ℤ, generateVaccinationScheduleWith (some b) [] = .ok []) := by
  refine ⟨fun birthDate => ?_, fun b table => ⟨_, rfl⟩, fun b => rfl⟩
  cases birthDate with
  | none => exact ⟨fun _ => rfl, fun _ => ⟨.invalidDate, rfl⟩⟩
  | some z =>
      constructor
      · rintro ⟨e, he⟩
        have he' : (Except.ok (generateScheduleOk z) :
            Except InvalidDateError (List VaccinationScheduleItem)) = .error e := he
        exact Except.noConfusion he'
      · intro h
        exact Option.noConfusion h

/-- Witness for C6: an unparseable anchor makes generation over the KEPI
table fail. -/
theorem generateVaccinationSchedule_error_iff_witness :
    ∃ e, generateVaccinationSchedule none = .error e :=
  (generateVaccinationSchedule_error_iff.1 none).2 rfl

/-- C7: schedule generation is a pure function of the anchor date: equal
inputs give identical, identically-ordered outputs. -/
theorem generateVaccinationSchedule_deterministic (b₁ b₂ : Option ℤ)
    (h : b₁ = b₂) :
    generateVaccinationSchedule b₁ = generateVaccinationSchedule b₂ :=
  congrArg generateVaccinationSchedule h

/-- Witness for C7 at a concrete anchor. -/
theorem generateVaccinationSchedule_deterministic_witness :
    generateVaccinationSchedule (some 0) = generateVaccinationSchedule (some 0) :=
  generateVaccinationSchedule_deterministic (some 0) (some 0) rfl

/-- The early-returning loop of `getNextVaccination` computes exactly the
first-unmatched-entry description. -/
theorem findNextPending_eq_spec (today : ℤ) (completed : List CompletedVaccination) :
    ∀ l, findNextPending today completed l = findNextPendingSpec today completed l := by
  intro l
  induction l with
  | nil => rfl
  | cons s rest ih =>
      by_cases h : isCompletedFor completed s
      · rw [findNextPending, if_pos h, ih, findNextPendingSpec, findNextPendingSpec,
          List.find?_cons_of_neg _ (by simp [h])]
      · rw [findNextPending, if_neg h, findNextPendingSpec,
          List.find?_cons_of_pos _ (by simp [h])]
        rfl

/-- The completion test only depends on the multiset of completion keys. -/
theorem isCompletedFor_eq_of_keys_perm {c₁ c₂ : List CompletedVaccination}
    (h : (c₁.map completionKey).Perm (c₂.map completionKey))
    (s : VaccinationScheduleItem) :
    isCompletedFor c₁ s = isCompletedFor c₂ s := by
  have hmap : ∀ c : List CompletedVaccination,
      isCompletedFor c s = (c.map completionKey).any
        (fun k => k.1 == s.name && k.2.1 == s.dose && k.2.2 == "administered") := by
    intro c
    induction c with
    | nil => rfl
    | cons x xs ih => simp_all [isCompletedFor, completionKey]
  rw [hmap c₁, hmap c₂]
  apply Bool.eq_iff_iff.mpr
  simp only [List.any_eq_true]
  exact ⟨fun ⟨k, hk, hpk⟩ => ⟨k, h.mem_iff.mp hk, hpk⟩,
    fun ⟨k, hk, hpk⟩ => ⟨k, h.mem_iff.mpr hk, hpk⟩⟩

/-- The loop of `getNextVaccination` is a congruence in the completion
test. -/
theorem findNextPending_congr (today : ℤ) {c₁ c₂ : List CompletedVaccination}
    (hpt : ∀ s, isCompletedFor c₁ s = isCompletedFor c₂ s) :
    ∀ l, findNextPending today c₁ l = findNextPending today c₂ l := by
  intro l
  induction l with
  | nil => rfl
  | cons s rest ih => simp only [findNextPending, hpt s, ih]

/-- C2: the next-pending lookup returns the first entry of the sorted
schedule without an administered completion matching on name and dose,
tagged overdue exactly when its date is strictly before the clock (equality
giving scheduled), and returns none exactly when every entry is matched. -/
theorem getNextVaccination_spec (b today : ℤ) (completed : List CompletedVaccination) :
    getNextVaccination b completed today
      = findNextPendingSpec today completed (generateScheduleOk b) ∧
    (getNextVaccination b completed today = none ↔
      ∀ s ∈ generateScheduleOk b, isCompletedFor completed s = true) ∧
    (∀ r, getNextVaccination b completed today = some r →
      ((r.status = "overdue" ↔ r.scheduledDate < today) ∧
       (r.scheduledDate = today → r.status = "scheduled"))) := by
  have hspec := findNextPending_eq_spec today completed (generateScheduleOk b)
  refine ⟨hspec, ?_, ?_⟩
  · rw [getNextVaccination, hspec, findNextPendingSpec]
    simp [List.find?_eq_none]
  · intro r hr
    rw [getNextVaccination, hspec, findNextPendingSpec] at hr
    rw [Option.map_eq_some'] at hr
    obtain ⟨s, _, hrs⟩ := hr
    subst hrs
    by_cases h : s.date < today
    · constructor
      · simp [nextOf, h]
      · intro heq
        rw [nextOf] at heq
        simp only at heq
        omega
    · have hne : ("scheduled" : String) ≠ "overdue" := by decide
      constructor
      · simp [nextOf, h, hne]
      · intro _
        simp [nextOf, h]

/-- Witness for C2: anchor 0, clock day 0, no completions — the first
pending item is BCG dated day 0, whose date equals the clock, and it is
tagged scheduled, not overdue. -/
theorem getNextVaccination_spec_witness :
    (bcgNextAtDay0.status = "overdue" ↔ bcgNextAtDay0.scheduledDate < 0) ∧
    (bcgNextAtDay0.scheduledDate = 0 → bcgNextAtDay0.status = "scheduled") :=
  (getNextVaccination_spec 0 0 []).2.2 bcgNextAtDay0 (by decide)

/-- C8: the next-pending lookup depends on the completion list only through
the multiset of (label, dose, status) keys: dates stored in completion
records and the order of the list are ignored. -/
theorem getNextVaccination_completion_independent (b today : ℤ)
    (c₁ c₂ : List CompletedVaccination)
    (h : (c₁.map completionKey).Perm (c₂.map completionKey)) :
    getNextVaccination b c₁ today = getNextVaccination b c₂ today :=
  findNextPending_congr today (isCompletedFor_eq_of_keys_perm h) _

/-- Witness for C8: swapping two completion records and changing their
stored dates leaves the lookup result unchanged. -/
theorem getNextVaccination_completion_independent_witness :
    getNextVaccination 0
      [{ vaccineName := "BCG", doseNumber := 1, status := "administered", administeredDate := 5 },
       { vaccineName := "OPV", doseNumber := 1, status := "administered", administeredDate := 6 }] 0
      = getNextVaccination 0
      [{ vaccineName := "OPV", doseNumber := 1, status := "administered", administeredDate := 100 },
       { vaccineName := "BCG", doseNumber := 1, status := "administered", administeredDate := 200 }] 0 :=
  getNextVaccination_completion_independent 0 0 _ _ (by decide)

/-- The value `roundPercent c d` is the half-up rounding of `100 c / d`: it is the
unique integer `p` with `100 c / d ∈ [p - 1/2, p + 1/2)`, stated after
clearing denominators. -/
theorem roundPercent_bounds (c d : ℕ) (hd : 0 < d) :
    (2 * (roundPercent c d : ℤ) - 1) * d ≤ 200 * c ∧
    (200 * c : ℤ) < (2 * (roundPercent c d : ℤ) + 1) * d := by
  have h1 : 2 * d * roundPercent c d + (200 * c + d) % (2 * d) = 200 * c + d := by
    simpa [roundPercent] using Nat.div_add_mod (200 * c + d) (2 * d)
  have h2 : (200 * c + d) % (2 * d) < 2 * d := Nat.mod_lt _ (by omega)
  have h1' : (2 * d * roundPercent c d : ℤ) + ((200 * c + d) % (2 * d) : ℕ)
      = 200 * c + d := by exact_mod_cast h1
  have h2' : (((200 * c + d) % (2 * d) : ℕ) : ℤ) < 2 * d := by exact_mod_cast h2
  have h3' : (0 : ℤ) ≤ (((200 * c + d) % (2 * d) : ℕ) : ℤ) := Int.natCast_nonneg _
  constructor <;> nlinarith [h1', h2', h3']

/-- C3: the progress result counts as due the schedule entries dated on or
before the clock, counts as completed every administered completion record
(no date or membership filtering), and its percentage is the half-up
rounding of `completedCount / dueCount * 100` when `dueCount > 0` (so it is
not clamped and may exceed 100) and `0` when `dueCount = 0`. -/
theorem calculateVaccinationProgress_spec (b today : ℤ)
    (completed : List CompletedVaccination) :
    (calculateVaccinationProgress b completed today).totalVaccines
      = (generateScheduleOk b).countP (fun s => decide (s.date ≤ today)) ∧
    (calculateVaccinationProgress b completed today).completedVaccines
      = completed.countP (fun c => c.status == "administered") ∧
    (0 < (calculateVaccinationProgress b completed today).totalVaccines →
      (2 * ((calculateVaccinationProgress b completed today).progressPercentage : ℤ) - 1)
          * (calculateVaccinationProgress b completed today).totalVaccines
        ≤ 200 * (calculateVaccinationProgress b completed today).completedVaccines ∧
      (200 * ((calculateVaccinationProgress b completed today).completedVaccines : ℤ))
        < (2 * ((calculateVaccinationProgress b completed today).progressPercentage : ℤ) + 1)
          * (calculateVaccinationProgress b completed today).totalVaccines) ∧
    ((calculateVaccinationProgress b completed today).totalVaccines = 0 →
      (calculateVaccinationProgress b completed today).progressPercentage = 0) ∧
    (calculateVaccinationProgress b completed today).nextDue
      = getNextVaccination b completed today := by
  simp only [calculateVaccinationProgress, List.countP_eq_length_filter]
  refine ⟨by trivial, by trivial, ?_, ?_, by trivial⟩
  · intro hpos
    rw [if_pos hpos]
    exact roundPercent_bounds _ _ hpos
  · intro hzero
    rw [hzero]
    rfl

/-- Witness for C3: anchor 0, clock day 0 and one administered BCG record —
two entries are due, one completion is counted, and the 50 percent figure
satisfies the rounding bounds. -/
theorem calculateVaccinationProgress_spec_witness :
    (2 * ((calculateVaccinationProgress 0
        [{ vaccineName := "BCG", doseNumber := 1, status := "administered",
           administeredDate := 0 }] 0).progressPercentage : ℤ) - 1)
        * (calculateVaccinationProgress 0
        [{ vaccineName := "BCG", doseNumber := 1, status := "administered",
           administeredDate := 0 }] 0).totalVaccines
      ≤ 200 * (calculateVaccinationProgress 0
        [{ vaccineName := "BCG", doseNumber := 1, status := "administered",
           administeredDate := 0 }] 0).completedVaccines ∧
    (200 * ((calculateVaccinationProgress 0
        [{ vaccineName := "BCG", doseNumber := 1, status := "administered",
           administeredDate := 0 }] 0).completedVaccines : ℤ))
      < (2 * ((calculateVaccinationProgress 0
        [{ vaccineName := "BCG", doseNumber := 1, status := "administered",
           administeredDate := 0 }] 0).progressPercentage : ℤ) + 1)
        * (calculateVaccinationProgress 0
        [{ vaccineName := "BCG", doseNumber := 1, status := "administered",
           administeredDate := 0 }] 0).totalVaccines :=
  (calculateVaccinationProgress_spec 0 0
    [{ vaccineName := "BCG", doseNumber := 1, status := "administered",
       administeredDate := 0 }]).2.2.1 (by decide)

end MamaCare
